import Mathlib

/-!
Verification of the Enbox Management Portal API client core
(`streamlit_app.py`): the two request/response wrapper classes
`MSPAPIClient` and `UserAPIClient`, their shared generic invoker
`_make_request`, and every public method of each class.

Modelling choices
* JSON values are an inductive `Json`; a Python payload dict is a list of
  key/value pairs in insertion order (Python dicts preserve insertion order
  and have unique keys).
* The HTTP layer (`requests.post` followed by `response.raise_for_status()`
  and `response.json()`) is abstracted as a `Transport` function from the
  request the client builds to an `HttpOutcome`:
  either the post call raises a `requests.exceptions.RequestException`
  carrying a message (constructor `exn`, covering connection errors,
  timeouts and TLS failures), or a response arrives with a status code, a
  reason phrase, and a body that either decodes as JSON or fails to decode
  with a decoder message (constructor `resp`).
* `response.raise_for_status()` raises `HTTPError` exactly when
  400 <= status < 600, with the message format of the requests library;
  `HTTPError` and the JSON decoding error are subclasses of
  `RequestException` (requests >= 2.27), so the except clause in
  `_make_request` catches every one of these failure modes.
* Each client method is a pure function of the client value, the transport
  and its arguments, returning a `CallOutput`: the `(data, error)` pair the
  Python method returns, the list of HTTP requests sent during the call,
  and the client value after the call (the Python methods never assign to
  any attribute of `self`, so the embedding threads the instance through
  unchanged).
-/

/-- JSON values, as produced by serializing Python objects with the
requests library: `None` becomes `null`, `str` becomes a JSON string,
`int` a number, lists become arrays, dicts become objects. -/
inductive Json where
  | null : Json
  | bool : Bool → Json
  | num : Int → Json
  | str : String → Json
  | arr : List Json → Json
  | obj : List (String × Json) → Json

/-- An HTTP request as built by `_make_request`: the fixed endpoint URL,
the header list of the client instance, and the JSON payload
`{"action": action, **kwargs}` as an ordered key/value list. -/
structure HttpRequest where
  url : String
  headers : List (String × String)
  payload : List (String × Json)

/-- Outcome of one `requests.post` call, as observed by `_make_request`:
either the call raises a `RequestException` whose string rendering is
`msg` (transport failures: connection error, timeout, TLS failure), or a
response arrives with its status code, reason phrase, and a body that is
either valid JSON or fails to decode with the given decoder message. -/
inductive HttpOutcome where
  | exn : (msg : String) → HttpOutcome
  | resp : (status : Nat) → (reason : String) → (body : Except String Json) → HttpOutcome

/-- The network, abstracted: what happens for each request the client posts. -/
def Transport : Type := HttpRequest → HttpOutcome

/-- Message of the `requests.exceptions.HTTPError` raised by
`response.raise_for_status()` for a status code in [400, 600). -/
def http_error_msg (status : Nat) (reason : String) (url : String) : String :=
  if status < 500 then
    toString status ++ " Client Error: " ++ reason ++ " for url: " ++ url
  else
    toString status ++ " Server Error: " ++ reason ++ " for url: " ++ url

/-- Result of one client method call: the `(data, error)` pair the Python
method returns, the list of HTTP requests sent during the call, and the
client instance after the call. -/
structure CallOutput (Client : Type) where
  value : Option Json
  error : Option String
  sent : List HttpRequest
  self : Client

/-- Exactly one side of the `(data, error)` pair is populated. -/
def CallOutput.exactlyOne {Client : Type} (o : CallOutput Client) : Prop :=
  (o.value.isSome = true ∧ o.error = none) ∨ (o.value = none ∧ o.error.isSome = true)

/-- Python truthiness test `not password` for an optional string:
true when the value is `None` or the empty string. -/
def pyFalsy : Option String → Bool
  | none => true
  | some s => s.isEmpty

/-- Serialization of an optional Python string: `None` becomes JSON null. -/
def Json.ofOptStr : Option String → Json
  | none => Json.null
  | some s => Json.str s

/-- Python expression `xs or []` on an optional list: `None` (and the
empty list) give the empty list, any other list gives itself. -/
def pyOrEmpty : Option (List String) → List String
  | none => []
  | some l => l

/-- MSP_API_URL constant of the source. -/
def MSP_API_URL : String :=
  "https://cthgcqdyqplumqizjngx.supabase.co/functions/v1/msp-api"

/-- USER_API_URL constant of the source. -/
def USER_API_URL : String :=
  "https://cthgcqdyqplumqizjngx.supabase.co/functions/v1/user-api"

/-- Client for MSP API operations: `__init__` stores the api key and the
header dict on the instance. -/
structure MSPAPIClient where
  api_key : String
  headers : List (String × String)

/-- Constructor `MSPAPIClient.__init__`. -/
def MSPAPIClient.init (api_key : String) : MSPAPIClient :=
  { api_key := api_key
    headers := [("Content-Type", "application/json"), ("X-MSP-API-Key", api_key)] }

/-- The HTTP request `MSPAPIClient._make_request` builds and posts:
payload `{"action": action, **kwargs}`, the instance headers, the fixed
MSP endpoint URL. -/
def mspRequest (c : MSPAPIClient) (action : String)
    (kwargs : List (String × Json)) : HttpRequest :=
  { url := MSP_API_URL
    headers := c.headers
    payload := ("action", Json.str action) :: kwargs }

/-- Method `MSPAPIClient._make_request`: post the payload, call
`raise_for_status`, decode the JSON body; any `RequestException`
(transport failure, `HTTPError`, JSON decoding error) is caught and
returned as `(None, str(e))`. -/
def MSPAPIClient._make_request (c : MSPAPIClient) (t : Transport)
    (action : String) (kwargs : List (String × Json)) : CallOutput MSPAPIClient :=
  match t (mspRequest c action kwargs) with
  | .exn msg => ⟨none, some msg, [mspRequest c action kwargs], c⟩
  | .resp status reason body =>
    if 400 ≤ status ∧ status < 600 then
      ⟨none, some (http_error_msg status reason MSP_API_URL), [mspRequest c action kwargs], c⟩
    else
      match body with
      | .ok j => ⟨some j, none, [mspRequest c action kwargs], c⟩
      | .error msg => ⟨none, some msg, [mspRequest c action kwargs], c⟩

/-- Method `MSPAPIClient.get_enboxes`. -/
def MSPAPIClient.get_enboxes (c : MSPAPIClient) (t : Transport) : CallOutput MSPAPIClient :=
  c._make_request t "list-enboxes" []

/-- Method `MSPAPIClient.create_enbox`: for `create_via == "direct"` a
falsy password fails locally before any request; otherwise the invite
action is sent, without any password check. -/
def MSPAPIClient.create_enbox (c : MSPAPIClient) (t : Transport) (email : String)
    (password : Option String) (display_name : Option String) (create_via : String) :
    CallOutput MSPAPIClient :=
  if create_via = "direct" then
    if pyFalsy password then
      ⟨none, some "Password is required for direct creation", [], c⟩
    else
      c._make_request t "create-enbox"
        [("email", Json.str email), ("password", Json.ofOptStr password),
         ("displayName", Json.ofOptStr display_name)]
  else
    c._make_request t "create-enbox-invite"
      [("email", Json.str email), ("displayName", Json.ofOptStr display_name)]

/-- Method `MSPAPIClient.get_enbox`. -/
def MSPAPIClient.get_enbox (c : MSPAPIClient) (t : Transport) (enbox_id : Json) :
    CallOutput MSPAPIClient :=
  c._make_request t "get-enbox" [("managedEnboxId", enbox_id)]

/-- Method `MSPAPIClient.activate_enbox`. -/
def MSPAPIClient.activate_enbox (c : MSPAPIClient) (t : Transport) (enbox_id : Json) :
    CallOutput MSPAPIClient :=
  c._make_request t "activate-enbox" [("managedEnboxId", enbox_id)]

/-- Method `MSPAPIClient.deactivate_enbox`. -/
def MSPAPIClient.deactivate_enbox (c : MSPAPIClient) (t : Transport) (enbox_id : Json) :
    CallOutput MSPAPIClient :=
  c._make_request t "deactivate-enbox" [("managedEnboxId", enbox_id)]

/-- Method `MSPAPIClient.get_stats`. -/
def MSPAPIClient.get_stats (c : MSPAPIClient) (t : Transport) : CallOutput MSPAPIClient :=
  c._make_request t "get-stats" []

/-- Method `MSPAPIClient.get_usage`. -/
def MSPAPIClient.get_usage (c : MSPAPIClient) (t : Transport) : CallOutput MSPAPIClient :=
  c._make_request t "get-usage" []

/-- One invocation of a public method of `MSPAPIClient`, with its
arguments. -/
inductive MSPCall where
  | get_enboxes
  | create_enbox (email : String) (password : Option String)
      (display_name : Option String) (create_via : String)
  | get_enbox (enbox_id : Json)
  | activate_enbox (enbox_id : Json)
  | deactivate_enbox (enbox_id : Json)
  | get_stats
  | get_usage

/-- Dispatch of an `MSPCall` to the corresponding method. -/
def MSPAPIClient.run (c : MSPAPIClient) (t : Transport) : MSPCall → CallOutput MSPAPIClient
  | .get_enboxes => c.get_enboxes t
  | .create_enbox e p d v => c.create_enbox t e p d v
  | .get_enbox i => c.get_enbox t i
  | .activate_enbox i => c.activate_enbox t i
  | .deactivate_enbox i => c.deactivate_enbox t i
  | .get_stats => c.get_stats t
  | .get_usage => c.get_usage t

/-- Client for User API operations: `__init__` stores the api key and the
header dict on the instance. -/
structure UserAPIClient where
  api_key : String
  headers : List (String × String)

/-- Constructor `UserAPIClient.__init__`. -/
def UserAPIClient.init (api_key : String) : UserAPIClient :=
  { api_key := api_key
    headers := [("Content-Type", "application/json"), ("X-Enbox-API-Key", api_key)] }

/-- The HTTP request `UserAPIClient._make_request` builds and posts. -/
def userRequest (c : UserAPIClient) (action : String)
    (kwargs : List (String × Json)) : HttpRequest :=
  { url := USER_API_URL
    headers := c.headers
    payload := ("action", Json.str action) :: kwargs }

/-- Method `UserAPIClient._make_request`: identical to the MSP variant
except for the endpoint URL and the header list of the instance. -/
def UserAPIClient._make_request (c : UserAPIClient) (t : Transport)
    (action : String) (kwargs : List (String × Json)) : CallOutput UserAPIClient :=
  match t (userRequest c action kwargs) with
  | .exn msg => ⟨none, some msg, [userRequest c action kwargs], c⟩
  | .resp status reason body =>
    if 400 ≤ status ∧ status < 600 then
      ⟨none, some (http_error_msg status reason USER_API_URL), [userRequest c action kwargs], c⟩
    else
      match body with
      | .ok j => ⟨some j, none, [userRequest c action kwargs], c⟩
      | .error msg => ⟨none, some msg, [userRequest c action kwargs], c⟩

/-- Method `UserAPIClient.get_profile`. -/
def UserAPIClient.get_profile (c : UserAPIClient) (t : Transport) : CallOutput UserAPIClient :=
  c._make_request t "get-profile" []

/-- Method `UserAPIClient.list_emails`. -/
def UserAPIClient.list_emails (c : UserAPIClient) (t : Transport)
    (folder : String) (limit : Int) (offset : Int) : CallOutput UserAPIClient :=
  c._make_request t "list-emails"
    [("folder", Json.str folder), ("limit", Json.num limit), ("offset", Json.num offset)]

/-- Method `UserAPIClient.get_email`. -/
def UserAPIClient.get_email (c : UserAPIClient) (t : Transport) (email_id : Json) :
    CallOutput UserAPIClient :=
  c._make_request t "get-email" [("emailId", email_id)]

/-- Method `UserAPIClient.send_email`: the optional cc and bcc lists are
normalized with `cc or []` and `bcc or []` before serialization. -/
def UserAPIClient.send_email (c : UserAPIClient) (t : Transport) (to_ : List String)
    (subject : String) (body_text : String) (body_html : String)
    (cc : Option (List String)) (bcc : Option (List String)) (priority : String) :
    CallOutput UserAPIClient :=
  c._make_request t "send-email"
    [("to", Json.arr (to_.map Json.str)),
     ("cc", Json.arr ((pyOrEmpty cc).map Json.str)),
     ("bcc", Json.arr ((pyOrEmpty bcc).map Json.str)),
     ("subject", Json.str subject),
     ("bodyText", Json.str body_text),
     ("bodyHtml", Json.str body_html),
     ("priority", Json.str priority)]

/-- Method `UserAPIClient.mark_read`. -/
def UserAPIClient.mark_read (c : UserAPIClient) (t : Transport) (email_id : Json) :
    CallOutput UserAPIClient :=
  c._make_request t "mark-read" [("emailId", email_id)]

/-- Method `UserAPIClient.mark_unread`. -/
def UserAPIClient.mark_unread (c : UserAPIClient) (t : Transport) (email_id : Json) :
    CallOutput UserAPIClient :=
  c._make_request t "mark-unread" [("emailId", email_id)]

/-- Method `UserAPIClient.star`. -/
def UserAPIClient.star (c : UserAPIClient) (t : Transport) (email_id : Json) :
    CallOutput UserAPIClient :=
  c._make_request t "star" [("emailId", email_id)]

/-- Method `UserAPIClient.unstar`. -/
def UserAPIClient.unstar (c : UserAPIClient) (t : Transport) (email_id : Json) :
    CallOutput UserAPIClient :=
  c._make_request t "unstar" [("emailId", email_id)]

/-- Method `UserAPIClient.archive`. -/
def UserAPIClient.archive (c : UserAPIClient) (t : Transport) (email_id : Json) :
    CallOutput UserAPIClient :=
  c._make_request t "archive" [("emailId", email_id)]

/-- Method `UserAPIClient.trash`. -/
def UserAPIClient.trash (c : UserAPIClient) (t : Transport) (email_id : Json) :
    CallOutput UserAPIClient :=
  c._make_request t "trash" [("emailId", email_id)]

/-- Method `UserAPIClient.restore`. -/
def UserAPIClient.restore (c : UserAPIClient) (t : Transport) (email_id : Json) :
    CallOutput UserAPIClient :=
  c._make_request t "restore" [("emailId", email_id)]

/-- Method `UserAPIClient.delete_draft`. -/
def UserAPIClient.delete_draft (c : UserAPIClient) (t : Transport) (email_id : Json) :
    CallOutput UserAPIClient :=
  c._make_request t "delete-draft" [("emailId", email_id)]

/-- Method `UserAPIClient.list_labels`. -/
def UserAPIClient.list_labels (c : UserAPIClient) (t : Transport) : CallOutput UserAPIClient :=
  c._make_request t "list-labels" []

/-- Method `UserAPIClient.resolve_enbox`. -/
def UserAPIClient.resolve_enbox (c : UserAPIClient) (t : Transport) (enbox_id : Json) :
    CallOutput UserAPIClient :=
  c._make_request t "resolve-enbox" [("enboxId", enbox_id)]

/-- One invocation of a public method of `UserAPIClient`, with its
arguments. -/
inductive UserCall where
  | get_profile
  | list_emails (folder : String) (limit : Int) (offset : Int)
  | get_email (email_id : Json)
  | send_email (to_ : List String) (subject : String) (body_text : String)
      (body_html : String) (cc : Option (List String)) (bcc : Option (List String))
      (priority : String)
  | mark_read (email_id : Json)
  | mark_unread (email_id : Json)
  | star (email_id : Json)
  | unstar (email_id : Json)
  | archive (email_id : Json)
  | trash (email_id : Json)
  | restore (email_id : Json)
  | delete_draft (email_id : Json)
  | list_labels
  | resolve_enbox (enbox_id : Json)

/-- Dispatch of a `UserCall` to the corresponding method. -/
def UserAPIClient.run (c : UserAPIClient) (t : Transport) : UserCall → CallOutput UserAPIClient
  | .get_profile => c.get_profile t
  | .list_emails f l o => c.list_emails t f l o
  | .get_email i => c.get_email t i
  | .send_email to_ s bt bh cc bcc p => c.send_email t to_ s bt bh cc bcc p
  | .mark_read i => c.mark_read t i
  | .mark_unread i => c.mark_unread t i
  | .star i => c.star t i
  | .unstar i => c.unstar t i
  | .archive i => c.archive t i
  | .trash i => c.trash t i
  | .restore i => c.restore t i
  | .delete_draft i => c.delete_draft t i
  | .list_labels => c.list_labels t
  | .resolve_enbox i => c.resolve_enbox t i

/-- Mock transport whose post call always raises a `RequestException`
with the given message. -/
def constExn (msg : String) : Transport := fun _ => HttpOutcome.exn msg

/-- Mock transport that always returns the given response. -/
def constResp (status : Nat) (reason : String) (body : Except String Json) : Transport :=
  fun _ => HttpOutcome.resp status reason body

/-- Lookup in an association list with pairwise distinct keys finds any
member pair. -/
theorem lookup_eq_of_mem {α β : Type} [BEq α] [LawfulBEq α]
    (k : α) (v : β) (l : List (α × β))
    (hnd : (l.map Prod.fst).Nodup) (hm : (k, v) ∈ l) :
    List.lookup k l = some v := by
  induction l with
  | nil => simp at hm
  | cons p tl ih =>
      obtain ⟨pk, pv⟩ := p
      rw [List.map_cons, List.nodup_cons] at hnd
      rcases List.mem_cons.mp hm with h | hm2
      · rw [show pk = k from (Prod.mk.injEq .. ▸ h).1.symm,
          show pv = v from (Prod.mk.injEq .. ▸ h).2.symm]
        simp [List.lookup]
      · have hk : (k == pk) = false := by
          rw [beq_eq_false_iff_ne]
          intro he
          exact hnd.1 (List.mem_map.mpr ⟨(k, v), hm2, he⟩)
        simpa [List.lookup, hk] using ih hnd.2 hm2

/-- The MSP invoker always sends exactly the one request it builds. -/
theorem MSPAPIClient.msp_request_sent (c : MSPAPIClient) (t : Transport)
    (a : String) (ks : List (String × Json)) :
    (c._make_request t a ks).sent = [mspRequest c a ks] := by
  cases h : t (mspRequest c a ks) with
  | exn msg => simp [MSPAPIClient._make_request, h]
  | resp status reason body =>
      simp only [MSPAPIClient._make_request, h]
      split
      · rfl
      · cases body <;> rfl

/-- The User invoker always sends exactly the one request it builds. -/
theorem UserAPIClient.user_request_sent (c : UserAPIClient) (t : Transport)
    (a : String) (ks : List (String × Json)) :
    (c._make_request t a ks).sent = [userRequest c a ks] := by
  cases h : t (userRequest c a ks) with
  | exn msg => simp [UserAPIClient._make_request, h]
  | resp status reason body =>
      simp only [UserAPIClient._make_request, h]
      split
      · rfl
      · cases body <;> rfl

/-- The MSP invoker never mutates the client instance. -/
theorem MSPAPIClient.msp_request_self (c : MSPAPIClient) (t : Transport)
    (a : String) (ks : List (String × Json)) :
    (c._make_request t a ks).self = c := by
  cases h : t (mspRequest c a ks) with
  | exn msg => simp [MSPAPIClient._make_request, h]
  | resp status reason body =>
      simp only [MSPAPIClient._make_request, h]
      split
      · rfl
      · cases body <;> rfl

/-- The User invoker never mutates the client instance. -/
theorem UserAPIClient.user_request_self (c : UserAPIClient) (t : Transport)
    (a : String) (ks : List (String × Json)) :
    (c._make_request t a ks).self = c := by
  cases h : t (userRequest c a ks) with
  | exn msg => simp [UserAPIClient._make_request, h]
  | resp status reason body =>
      simp only [UserAPIClient._make_request, h]
      split
      · rfl
      · cases body <;> rfl

/-- The MSP invoker populates exactly one of the value and error slots. -/
theorem MSPAPIClient.msp_request_exactlyOne (c : MSPAPIClient) (t : Transport)
    (a : String) (ks : List (String × Json)) :
    (c._make_request t a ks).exactlyOne := by
  cases h : t (mspRequest c a ks) with
  | exn msg => right; simp [MSPAPIClient._make_request, h]
  | resp status reason body =>
      simp only [MSPAPIClient._make_request, h]
      split
      · right; simp
      · cases body with
        | error msg => right; simp
        | ok j => left; simp

/-- The User invoker populates exactly one of the value and error slots. -/
theorem UserAPIClient.user_request_exactlyOne (c : UserAPIClient) (t : Transport)
    (a : String) (ks : List (String × Json)) :
    (c._make_request t a ks).exactlyOne := by
  cases h : t (userRequest c a ks) with
  | exn msg => right; simp [UserAPIClient._make_request, h]
  | resp status reason body =>
      simp only [UserAPIClient._make_request, h]
      split
      · right; simp
      · cases body with
        | error msg => right; simp
        | ok j => left; simp

/-- Claim C1: for every supported action, invoking the corresponding
client method (any method of MSPAPIClient or UserAPIClient) with any
arguments — in particular valid minimal ones — returns a pair in which
exactly one side is populated: either a decoded success value with no
error, or an error string with no value, never both and never neither. -/
theorem claim_C1 :
    (∀ (c : MSPAPIClient) (t : Transport) (call : MSPCall), (c.run t call).exactlyOne) ∧
    (∀ (u : UserAPIClient) (t : Transport) (call : UserCall), (u.run t call).exactlyOne) := by
  constructor
  · intro c t call
    cases call with
    | create_enbox e p d v =>
        simp only [MSPAPIClient.run, MSPAPIClient.create_enbox]
        split
        · split
          · right; simp
          · exact c.msp_request_exactlyOne t _ _
        · exact c.msp_request_exactlyOne t _ _
    | get_enboxes => exact c.msp_request_exactlyOne t _ _
    | get_enbox i => exact c.msp_request_exactlyOne t _ _
    | activate_enbox i => exact c.msp_request_exactlyOne t _ _
    | deactivate_enbox i => exact c.msp_request_exactlyOne t _ _
    | get_stats => exact c.msp_request_exactlyOne t _ _
    | get_usage => exact c.msp_request_exactlyOne t _ _
  · intro u t call
    cases call <;> exact u.user_request_exactlyOne t _ _

/-- Claim C2: the generic invoker of either client never propagates a
failure except through the error channel: a transport failure (the post
call raising with message `msg`), a non-success HTTP status (one in
[400, 600), the statuses for which `raise_for_status` raises), and a
response body that is not valid JSON all return `(None, error string)`,
with the instance unchanged. -/
theorem claim_C2 (c : MSPAPIClient) (u : UserAPIClient) (t : Transport)
    (a : String) (ks : List (String × Json)) :
    (∀ msg, t (mspRequest c a ks) = HttpOutcome.exn msg →
       c._make_request t a ks = ⟨none, some msg, [mspRequest c a ks], c⟩) ∧
    (∀ status reason body, t (mspRequest c a ks) = HttpOutcome.resp status reason body →
       (400 ≤ status ∧ status < 600 →
          c._make_request t a ks =
            ⟨none, some (http_error_msg status reason MSP_API_URL), [mspRequest c a ks], c⟩) ∧
       (∀ dmsg, body = Except.error dmsg → ¬(400 ≤ status ∧ status < 600) →
          c._make_request t a ks = ⟨none, some dmsg, [mspRequest c a ks], c⟩)) ∧
    (∀ msg, t (userRequest u a ks) = HttpOutcome.exn msg →
       u._make_request t a ks = ⟨none, some msg, [userRequest u a ks], u⟩) ∧
    (∀ status reason body, t (userRequest u a ks) = HttpOutcome.resp status reason body →
       (400 ≤ status ∧ status < 600 →
          u._make_request t a ks =
            ⟨none, some (http_error_msg status reason USER_API_URL), [userRequest u a ks], u⟩) ∧
       (∀ dmsg, body = Except.error dmsg → ¬(400 ≤ status ∧ status < 600) →
          u._make_request t a ks = ⟨none, some dmsg, [userRequest u a ks], u⟩)) := by
  refine ⟨fun msg h => ?_, fun status reason body h => ⟨fun hs => ?_, fun dmsg hb hns => ?_⟩,
    fun msg h => ?_, fun status reason body h => ⟨fun hs => ?_, fun dmsg hb hns => ?_⟩⟩
  · simp [MSPAPIClient._make_request, h]
  · simp only [MSPAPIClient._make_request, h]
    rw [if_pos hs]
  · simp only [MSPAPIClient._make_request, h, hb]
    rw [if_neg hns]
  · simp [UserAPIClient._make_request, h]
  · simp only [UserAPIClient._make_request, h]
    rw [if_pos hs]
  · simp only [UserAPIClient._make_request, h, hb]
    rw [if_neg hns]

/-- Witness for claim C2: a raising mock transport gives the error pair,
and a 401 mock response gives the HTTPError message, on concrete inputs. -/
theorem claim_C2_witness :
    (MSPAPIClient.init "k")._make_request (constExn "boom") "list-enboxes" [] =
      ⟨none, some "boom", [mspRequest (MSPAPIClient.init "k") "list-enboxes" []],
        MSPAPIClient.init "k"⟩ ∧
    (UserAPIClient.init "k")._make_request (constResp 401 "Unauthorized" (Except.ok Json.null))
        "get-profile" [] =
      ⟨none, some (http_error_msg 401 "Unauthorized" USER_API_URL),
        [userRequest (UserAPIClient.init "k") "get-profile" []], UserAPIClient.init "k"⟩ :=
  ⟨(claim_C2 (MSPAPIClient.init "k") (UserAPIClient.init "k") (constExn "boom")
      "list-enboxes" []).1 "boom" rfl,
   ((claim_C2 (MSPAPIClient.init "k") (UserAPIClient.init "k")
      (constResp 401 "Unauthorized" (Except.ok Json.null)) "get-profile" []).2.2.2
      401 "Unauthorized" (Except.ok Json.null) rfl).1 (by decide)⟩

/-- Claim C3: for every email and display name, calling create_enbox in
direct mode with an absent (None or empty) password returns the error
pair with the descriptive message and sends no request at all. -/
theorem claim_C3 (c : MSPAPIClient) (t : Transport) (email : String)
    (display_name : Option String) (password : Option String)
    (h : pyFalsy password = true) :
    c.create_enbox t email password display_name "direct" =
      ⟨none, some "Password is required for direct creation", [], c⟩ := by
  simp [MSPAPIClient.create_enbox, h]

/-- Witness for claim C3 at a concrete input with password `None`. -/
theorem claim_C3_witness :
    pyFalsy none = true ∧
    (MSPAPIClient.init "k").create_enbox (constExn "never") "a@b.c" none (some "Al") "direct" =
      ⟨none, some "Password is required for direct creation", [], MSPAPIClient.init "k"⟩ :=
  ⟨rfl, claim_C3 (MSPAPIClient.init "k") (constExn "never") "a@b.c" (some "Al") none rfl⟩

/-- Claim C4: for every action name and every parameter map without the
key "action", the invoker POSTs exactly one request whose JSON body is
the parameter map merged with the action key (the body maps "action" to
the action name and each parameter key to its value), whose headers are
Content-Type: application/json plus exactly one role-specific credential
header: X-MSP-API-Key for the administrative client, X-Enbox-API-Key for
the mailbox client. -/
theorem claim_C4 (key a : String) (ks : List (String × Json)) (t : Transport)
    (hna : "action" ∉ ks.map Prod.fst) (hnd : (ks.map Prod.fst).Nodup) :
    (((MSPAPIClient.init key)._make_request t a ks).sent =
        [mspRequest (MSPAPIClient.init key) a ks] ∧
      (mspRequest (MSPAPIClient.init key) a ks).payload =
        ("action", Json.str a) :: ks ∧
      List.lookup "action" (mspRequest (MSPAPIClient.init key) a ks).payload =
        some (Json.str a) ∧
      (∀ k v, (k, v) ∈ ks →
        List.lookup k (mspRequest (MSPAPIClient.init key) a ks).payload = some v) ∧
      (mspRequest (MSPAPIClient.init key) a ks).url = MSP_API_URL ∧
      (mspRequest (MSPAPIClient.init key) a ks).headers =
        [("Content-Type", "application/json"), ("X-MSP-API-Key", key)] ∧
      ((mspRequest (MSPAPIClient.init key) a ks).headers.filter
          (fun h => h.1 == "X-MSP-API-Key")).length = 1 ∧
      ((mspRequest (MSPAPIClient.init key) a ks).headers.filter
          (fun h => h.1 == "X-Enbox-API-Key")).length = 0) ∧
    (((UserAPIClient.init key)._make_request t a ks).sent =
        [userRequest (UserAPIClient.init key) a ks] ∧
      (userRequest (UserAPIClient.init key) a ks).payload =
        ("action", Json.str a) :: ks ∧
      List.lookup "action" (userRequest (UserAPIClient.init key) a ks).payload =
        some (Json.str a) ∧
      (∀ k v, (k, v) ∈ ks →
        List.lookup k (userRequest (UserAPIClient.init key) a ks).payload = some v) ∧
      (userRequest (UserAPIClient.init key) a ks).url = USER_API_URL ∧
      (userRequest (UserAPIClient.init key) a ks).headers =
        [("Content-Type", "application/json"), ("X-Enbox-API-Key", key)] ∧
      ((userRequest (UserAPIClient.init key) a ks).headers.filter
          (fun h => h.1 == "X-Enbox-API-Key")).length = 1 ∧
      ((userRequest (UserAPIClient.init key) a ks).headers.filter
          (fun h => h.1 == "X-MSP-API-Key")).length = 0) := by
  have hmem : ∀ (k : String) (v : Json), (k, v) ∈ ks →
      List.lookup k (("action", Json.str a) :: ks) = some v := by
    intro k v hm
    apply lookup_eq_of_mem
    · rw [List.map_cons, List.nodup_cons]
      exact ⟨hna, hnd⟩
    · exact List.mem_cons_of_mem _ hm
  exact ⟨⟨MSPAPIClient.msp_request_sent _ t a ks, rfl, by simp [mspRequest, List.lookup],
      hmem, rfl, rfl, rfl, rfl⟩,
    ⟨UserAPIClient.user_request_sent _ t a ks, rfl, by simp [userRequest, List.lookup],
      hmem, rfl, rfl, rfl, rfl⟩⟩

/-- Witness for claim C4 at a concrete action and one-entry parameter map. -/
theorem claim_C4_witness :
    List.lookup "managedEnboxId"
        (mspRequest (MSPAPIClient.init "k1") "get-enbox"
          [("managedEnboxId", Json.str "id7")]).payload = some (Json.str "id7") ∧
    (userRequest (UserAPIClient.init "k1") "get-enbox"
        [("managedEnboxId", Json.str "id7")]).headers =
      [("Content-Type", "application/json"), ("X-Enbox-API-Key", "k1")] :=
  ⟨(claim_C4 "k1" "get-enbox" [("managedEnboxId", Json.str "id7")] (constExn "e")
      (by decide) (by decide)).1.2.2.2.1 "managedEnboxId" (Json.str "id7")
      (List.mem_singleton.mpr rfl),
   (claim_C4 "k1" "get-enbox" [("managedEnboxId", Json.str "id7")] (constExn "e")
      (by decide) (by decide)).2.2.2.2.2.2.1⟩

/-- Claim C5: for every non-empty recipient list and subject, send_email
called with cc and bcc omitted (None, the Python defaults) and the
remaining defaults sends one request whose body carries action
"send-email", the recipient list under "to", the subject, cc and bcc as
empty JSON arrays (never null), and priority "normal". -/
theorem claim_C5 (u : UserAPIClient) (t : Transport) (to_ : List String)
    (subject : String) (hto : to_ ≠ []) :
    (u.send_email t to_ subject "" "" none none "normal").sent.length = 1 ∧
    ∀ r ∈ (u.send_email t to_ subject "" "" none none "normal").sent,
      List.lookup "action" r.payload = some (Json.str "send-email") ∧
      List.lookup "to" r.payload = some (Json.arr (to_.map Json.str)) ∧
      List.lookup "cc" r.payload = some (Json.arr []) ∧
      List.lookup "bcc" r.payload = some (Json.arr []) ∧
      List.lookup "subject" r.payload = some (Json.str subject) ∧
      List.lookup "priority" r.payload = some (Json.str "normal") := by
  have hs : (u.send_email t to_ subject "" "" none none "normal").sent =
      [userRequest u "send-email"
        [("to", Json.arr (to_.map Json.str)),
         ("cc", Json.arr ((pyOrEmpty none).map Json.str)),
         ("bcc", Json.arr ((pyOrEmpty none).map Json.str)),
         ("subject", Json.str subject),
         ("bodyText", Json.str ""),
         ("bodyHtml", Json.str ""),
         ("priority", Json.str "normal")]] :=
    u.user_request_sent t _ _
  constructor
  · rw [hs]; rfl
  · intro r hr
    rw [hs, List.mem_singleton] at hr
    subst hr
    exact ⟨rfl, rfl, rfl, rfl, rfl, rfl⟩

/-- Witness for claim C5 with recipients `["a", "b"]`. -/
theorem claim_C5_witness :
    List.lookup "cc"
        (userRequest (UserAPIClient.init "k") "send-email"
          [("to", Json.arr ((["a", "b"] : List String).map Json.str)),
           ("cc", Json.arr ((pyOrEmpty none).map Json.str)),
           ("bcc", Json.arr ((pyOrEmpty none).map Json.str)),
           ("subject", Json.str "s"),
           ("bodyText", Json.str ""),
           ("bodyHtml", Json.str ""),
           ("priority", Json.str "normal")]).payload = some (Json.arr []) := by
  have h := (claim_C5 (UserAPIClient.init "k") (constExn "e") ["a", "b"] "s"
    (by decide)).2 _ (List.mem_singleton.mpr rfl)
  exact h.2.2.1

/-- Relation between the requests of two client instances that differ
only in the credential: same URL, same body, each with its own fixed
header list, and the header lists differ. -/
def headerIsolated (h1 h2 : List (String × String)) (r1 r2 : HttpRequest) : Prop :=
  r1.url = r2.url ∧ r1.payload = r2.payload ∧ r1.headers = h1 ∧ r2.headers = h2 ∧
    r1.headers ≠ r2.headers

/-- Two MSP invokers with different keys build header-isolated requests. -/
theorem msp_make_isolated (k1 k2 : String) (hk : k1 ≠ k2) (t1 t2 : Transport)
    (a : String) (ks : List (String × Json)) :
    List.Forall₂
      (headerIsolated [("Content-Type", "application/json"), ("X-MSP-API-Key", k1)]
        [("Content-Type", "application/json"), ("X-MSP-API-Key", k2)])
      ((MSPAPIClient.init k1)._make_request t1 a ks).sent
      ((MSPAPIClient.init k2)._make_request t2 a ks).sent := by
  rw [MSPAPIClient.msp_request_sent, MSPAPIClient.msp_request_sent]
  refine List.Forall₂.cons ⟨rfl, rfl, rfl, rfl, ?_⟩ List.Forall₂.nil
  simp [mspRequest, MSPAPIClient.init, hk]

/-- Two User invokers with different keys build header-isolated requests. -/
theorem user_make_isolated (k1 k2 : String) (hk : k1 ≠ k2) (t1 t2 : Transport)
    (a : String) (ks : List (String × Json)) :
    List.Forall₂
      (headerIsolated [("Content-Type", "application/json"), ("X-Enbox-API-Key", k1)]
        [("Content-Type", "application/json"), ("X-Enbox-API-Key", k2)])
      ((UserAPIClient.init k1)._make_request t1 a ks).sent
      ((UserAPIClient.init k2)._make_request t2 a ks).sent := by
  rw [UserAPIClient.user_request_sent, UserAPIClient.user_request_sent]
  refine List.Forall₂.cons ⟨rfl, rfl, rfl, rfl, ?_⟩ List.Forall₂.nil
  simp [userRequest, UserAPIClient.init, hk]

/-- Claim C6: two client instances of the same class constructed with
different credentials, issued the same method call with the same
arguments, produce request lists of the same length whose corresponding
requests are identical in URL and body and differ only in the
credential-bearing header value. -/
theorem claim_C6 (k1 k2 : String) (hk : k1 ≠ k2) :
    (∀ (t : Transport) (call : MSPCall),
      List.Forall₂
        (headerIsolated [("Content-Type", "application/json"), ("X-MSP-API-Key", k1)]
          [("Content-Type", "application/json"), ("X-MSP-API-Key", k2)])
        ((MSPAPIClient.init k1).run t call).sent
        ((MSPAPIClient.init k2).run t call).sent) ∧
    (∀ (t : Transport) (call : UserCall),
      List.Forall₂
        (headerIsolated [("Content-Type", "application/json"), ("X-Enbox-API-Key", k1)]
          [("Content-Type", "application/json"), ("X-Enbox-API-Key", k2)])
        ((UserAPIClient.init k1).run t call).sent
        ((UserAPIClient.init k2).run t call).sent) := by
  constructor
  · intro t call
    cases call with
    | create_enbox e p d v =>
        by_cases hv : v = "direct"
        · by_cases hp : pyFalsy p = true
          · simp only [MSPAPIClient.run, MSPAPIClient.create_enbox, if_pos hv, if_pos hp]
            exact List.Forall₂.nil
          · simp only [MSPAPIClient.run, MSPAPIClient.create_enbox, if_pos hv, if_neg hp]
            exact msp_make_isolated k1 k2 hk t t _ _
        · simp only [MSPAPIClient.run, MSPAPIClient.create_enbox, if_neg hv]
          exact msp_make_isolated k1 k2 hk t t _ _
    | get_enboxes => exact msp_make_isolated k1 k2 hk t t _ _
    | get_enbox i => exact msp_make_isolated k1 k2 hk t t _ _
    | activate_enbox i => exact msp_make_isolated k1 k2 hk t t _ _
    | deactivate_enbox i => exact msp_make_isolated k1 k2 hk t t _ _
    | get_stats => exact msp_make_isolated k1 k2 hk t t _ _
    | get_usage => exact msp_make_isolated k1 k2 hk t t _ _
  · intro t call
    cases call <;> exact user_make_isolated k1 k2 hk t t _ _

/-- Witness for claim C6 with keys "a" and "b" on a concrete call. -/
theorem claim_C6_witness :
    List.Forall₂
      (headerIsolated [("Content-Type", "application/json"), ("X-MSP-API-Key", "a")]
        [("Content-Type", "application/json"), ("X-MSP-API-Key", "b")])
      ((MSPAPIClient.init "a").run (constExn "e") MSPCall.get_stats).sent
      ((MSPAPIClient.init "b").run (constExn "e") MSPCall.get_stats).sent :=
  (claim_C6 "a" "b" (by decide)).1 (constExn "e") MSPCall.get_stats

/-- Claim C7: a transport-level failure of the underlying HTTP call
(connection error, timeout, TLS failure — the post call raising a
RequestException whose rendering is the non-empty string `msg`) makes
the invoker of either client return `(None, msg)` with `msg` non-empty. -/
theorem claim_C7 (c : MSPAPIClient) (u : UserAPIClient) (t : Transport)
    (a : String) (ks : List (String × Json)) (msg : String) (hmsg : msg ≠ "") :
    (t (mspRequest c a ks) = HttpOutcome.exn msg →
       (c._make_request t a ks).value = none ∧
       (c._make_request t a ks).error = some msg ∧ msg ≠ "") ∧
    (t (userRequest u a ks) = HttpOutcome.exn msg →
       (u._make_request t a ks).value = none ∧
       (u._make_request t a ks).error = some msg ∧ msg ≠ "") := by
  constructor
  · intro h
    refine ⟨?_, ?_, hmsg⟩ <;> simp [MSPAPIClient._make_request, h]
  · intro h
    refine ⟨?_, ?_, hmsg⟩ <;> simp [UserAPIClient._make_request, h]

/-- Witness for claim C7 with a concrete connection-error message. -/
theorem claim_C7_witness :
    ((MSPAPIClient.init "k")._make_request (constExn "Connection refused")
        "list-enboxes" []).value = none ∧
    ((MSPAPIClient.init "k")._make_request (constExn "Connection refused")
        "list-enboxes" []).error = some "Connection refused" ∧
    ("Connection refused" : String) ≠ "" :=
  (claim_C7 (MSPAPIClient.init "k") (UserAPIClient.init "k") (constExn "Connection refused")
    "list-enboxes" [] "Connection refused" (by decide)).1 rfl

/-- The MSP invoker leaves the instance unchanged and stamps every sent
request with the fixed endpoint URL and the instance headers. -/
theorem msp_make_fixed (c : MSPAPIClient) (t : Transport) (a : String)
    (ks : List (String × Json)) :
    (c._make_request t a ks).self = c ∧
    ∀ r ∈ (c._make_request t a ks).sent, r.url = MSP_API_URL ∧ r.headers = c.headers := by
  refine ⟨c.msp_request_self t a ks, ?_⟩
  intro r hr
  rw [c.msp_request_sent t a ks, List.mem_singleton] at hr
  subst hr
  exact ⟨rfl, rfl⟩

/-- The User invoker leaves the instance unchanged and stamps every sent
request with the fixed endpoint URL and the instance headers. -/
theorem user_make_fixed (c : UserAPIClient) (t : Transport) (a : String)
    (ks : List (String × Json)) :
    (c._make_request t a ks).self = c ∧
    ∀ r ∈ (c._make_request t a ks).sent, r.url = USER_API_URL ∧ r.headers = c.headers := by
  refine ⟨c.user_request_self t a ks, ?_⟩
  intro r hr
  rw [c.user_request_sent t a ks, List.mem_singleton] at hr
  subst hr
  exact ⟨rfl, rfl⟩

/-- Claim C8: every client instance is immutable after construction:
the constructor fixes the credential and the header list as functions of
the api key alone, no method call changes the instance, and every
request any method sends uses exactly the fixed endpoint URL and the
headers computed at creation. -/
theorem claim_C8 :
    (∀ k, (MSPAPIClient.init k).api_key = k ∧
      (MSPAPIClient.init k).headers =
        [("Content-Type", "application/json"), ("X-MSP-API-Key", k)]) ∧
    (∀ (c : MSPAPIClient) (t : Transport) (call : MSPCall),
      (c.run t call).self = c ∧
      ∀ r ∈ (c.run t call).sent, r.url = MSP_API_URL ∧ r.headers = c.headers) ∧
    (∀ k, (UserAPIClient.init k).api_key = k ∧
      (UserAPIClient.init k).headers =
        [("Content-Type", "application/json"), ("X-Enbox-API-Key", k)]) ∧
    (∀ (u : UserAPIClient) (t : Transport) (call : UserCall),
      (u.run t call).self = u ∧
      ∀ r ∈ (u.run t call).sent, r.url = USER_API_URL ∧ r.headers = u.headers) := by
  refine ⟨fun k => ⟨rfl, rfl⟩, ?_, fun k => ⟨rfl, rfl⟩, ?_⟩
  · intro c t call
    cases call with
    | create_enbox e p d v =>
        by_cases hv : v = "direct"
        · by_cases hp : pyFalsy p = true
          · simp only [MSPAPIClient.run, MSPAPIClient.create_enbox, if_pos hv, if_pos hp]
            constructor
            · trivial
            · intro r hr
              simp at hr
          · simp only [MSPAPIClient.run, MSPAPIClient.create_enbox, if_pos hv, if_neg hp]
            exact msp_make_fixed c t _ _
        · simp only [MSPAPIClient.run, MSPAPIClient.create_enbox, if_neg hv]
          exact msp_make_fixed c t _ _
    | get_enboxes => exact msp_make_fixed c t _ _
    | get_enbox i => exact msp_make_fixed c t _ _
    | activate_enbox i => exact msp_make_fixed c t _ _
    | deactivate_enbox i => exact msp_make_fixed c t _ _
    | get_stats => exact msp_make_fixed c t _ _
    | get_usage => exact msp_make_fixed c t _ _
  · intro u t call
    cases call <;> exact user_make_fixed u t _ _

/-- Witness for claim C8 on a concrete client, transport and call. -/
theorem claim_C8_witness :
    ((MSPAPIClient.init "k").run (constExn "e") MSPCall.get_stats).self =
      MSPAPIClient.init "k" ∧
    (mspRequest (MSPAPIClient.init "k") "get-stats" []).url = MSP_API_URL ∧
    (mspRequest (MSPAPIClient.init "k") "get-stats" []).headers =
      (MSPAPIClient.init "k").headers :=
  ⟨(claim_C8.2.1 (MSPAPIClient.init "k") (constExn "e") MSPCall.get_stats).1,
   (claim_C8.2.1 (MSPAPIClient.init "k") (constExn "e") MSPCall.get_stats).2
     (mspRequest (MSPAPIClient.init "k") "get-stats" []) (List.mem_singleton.mpr rfl)⟩

/-- Claim C9: for every create_via value other than the exact string
"direct" — not only "invite" — create_enbox takes the invite path: the
result does not depend on the password at all (no presence check, the
password is ignored), and the call is exactly the invoker call for
action "create-enbox-invite" with only the email and the display name. -/
theorem claim_C9 (c : MSPAPIClient) (t : Transport) (email : String)
    (p1 p2 : Option String) (display_name : Option String) (create_via : String)
    (h : create_via ≠ "direct") :
    c.create_enbox t email p1 display_name create_via =
      c.create_enbox t email p2 display_name create_via ∧
    c.create_enbox t email p1 display_name create_via =
      c._make_request t "create-enbox-invite"
        [("email", Json.str email), ("displayName", Json.ofOptStr display_name)] := by
  constructor <;> simp [MSPAPIClient.create_enbox, h]

/-- Witness for claim C9 with create_via "pending", neither "direct" nor
"invite". -/
theorem claim_C9_witness :
    (MSPAPIClient.init "k").create_enbox (constExn "e") "a@b.c" none none "pending" =
      (MSPAPIClient.init "k").create_enbox (constExn "e") "a@b.c" (some "pw") none "pending" :=
  (claim_C9 (MSPAPIClient.init "k") (constExn "e") "a@b.c" none (some "pw") none "pending"
    (by decide)).1

/-- Claim C10: for every create_enbox call, direct or invite, in which
display_name is omitted (the Python default None), every request sent
still carries the key "displayName" with JSON value null: the optional
display name is passed through as null rather than dropped. -/
theorem claim_C10 (c : MSPAPIClient) (t : Transport) (email : String)
    (password : Option String) (create_via : String) :
    ∀ r ∈ (c.create_enbox t email password none create_via).sent,
      List.lookup "displayName" r.payload = some Json.null := by
  intro r hr
  by_cases hv : create_via = "direct"
  · by_cases hp : pyFalsy password = true
    · simp [MSPAPIClient.create_enbox, hv, hp] at hr
    · rw [show c.create_enbox t email password none create_via =
          c._make_request t "create-enbox"
            [("email", Json.str email), ("password", Json.ofOptStr password),
             ("displayName", Json.ofOptStr none)] by
          simp [MSPAPIClient.create_enbox, hv, hp],
        c.msp_request_sent t _ _, List.mem_singleton] at hr
      subst hr
      rfl
  · rw [show c.create_enbox t email password none create_via =
        c._make_request t "create-enbox-invite"
          [("email", Json.str email), ("displayName", Json.ofOptStr none)] by
        simp [MSPAPIClient.create_enbox, hv],
      c.msp_request_sent t _ _, List.mem_singleton] at hr
    subst hr
    rfl

/-- Witness for claim C10 on a concrete direct creation without display
name. -/
theorem claim_C10_witness :
    List.lookup "displayName"
      (mspRequest (MSPAPIClient.init "k") "create-enbox"
        [("email", Json.str "a@b.c"), ("password", Json.ofOptStr (some "pw")),
         ("displayName", Json.ofOptStr none)]).payload = some Json.null :=
  claim_C10 (MSPAPIClient.init "k") (constExn "e") "a@b.c" (some "pw") "direct" _
    (List.mem_singleton.mpr rfl)
